import Mathlib

/-!
Verification of the zoubida static-file server (src/zoubida/src/main.rs).

Rust strings are modelled as Lean `String`s; the character-level Rust std
operations the server uses (`str::split` / `str::rsplitn` on a `char`,
`str::replace`, `PathBuf::push`) are re-implemented below as structurally
recursive functions on `List Char` so that every definition is executable
by the kernel.  External collaborators (the `ServeDir` static-file
delegate, the filesystem, the TLS credential loader, the HTTP authority
parser) are passed in as explicit parameters, exactly at the points where
the source calls out to them.
-/

/-- Rust `s.split(c)`: splits a character list on every occurrence of `c`,
keeping empty pieces; always returns at least one piece. -/
def splitChar (c : Char) : List Char → List (List Char)
  | [] => [[]]
  | x :: xs =>
    if x = c then
      [] :: splitChar c xs
    else
      match splitChar c xs with
      | [] => [[x]]
      | p :: ps => (x :: p) :: ps

/-- Joins pieces with the character `c` between them; the inverse of
`splitChar` on its output. -/
def intercalateChar (c : Char) : List (List Char) → List Char
  | [] => []
  | [p] => p
  | p :: ps => p ++ c :: intercalateChar c ps

/-- Rust `s.rsplitn(3, c)` (as a list in iteration order, i.e. from the
right): at most 3 pieces, the last one being the unsplit remainder.
Expressed from the full split: when there are more than 3 labels the
first `len - 2` of them stay joined as the remainder piece. -/
def rsplitnParts (c : Char) (parts : List (List Char)) : List (List Char) :=
  if parts.length ≤ 3 then
    parts.reverse
  else
    (parts.drop (parts.length - 2)).reverse
      ++ [intercalateChar c (parts.take (parts.length - 2))]

/-- Rust `s.rsplitn(3, c)` on a character list. -/
def rsplitn3 (c : Char) (s : List Char) : List (List Char) :=
  rsplitnParts c (splitChar c s)

/-- `fn subdomain(host: &str) -> Option<&str>`:
`host.rsplitn(3, '.').skip(2).next()`. -/
def subdomain (host : String) : Option String :=
  (((rsplitn3 '.' host.data).drop 2).head?).map (fun cs => String.mk cs)

/-- Rust `s.replace(pat, rep)` on character lists, replacing every
leftmost non-overlapping occurrence of `pat`.  The `fuel` argument only
makes the recursion structural; `fuel = s.length + 1` is always enough
when `pat` is non-empty (each step consumes at least one character). -/
def replaceAllFuel (pat rep : List Char) : Nat → List Char → List Char
  | 0, s => s
  | _ + 1, [] => []
  | fuel + 1, x :: xs =>
    if pat ≠ [] ∧ pat.isPrefixOf (x :: xs) then
      rep ++ replaceAllFuel pat rep fuel ((x :: xs).drop pat.length)
    else
      x :: replaceAllFuel pat rep fuel xs

/-- Rust `s.replace(pat, rep)` on strings. -/
def rustReplace (s pat rep : String) : String :=
  String.mk (replaceAllFuel pat.data rep.data (s.data.length + 1) s.data)

/-- Rust `PathBuf::push` on Unix-style string paths: an absolute segment
replaces the base, otherwise the segment is appended, inserting a `/`
separator when needed. -/
def pathPush (base seg : String) : String :=
  if seg.data.head? = some '/' then seg
  else if base.data = [] then seg
  else if base.data.getLast? = some '/' then base ++ seg
  else base ++ "/" ++ seg

/-- CLI serving-mode selector (`enum Mode { Path, Subdomain }`). -/
inductive Mode where
  | Path
  | Subdomain
deriving DecidableEq

/-- `struct Args`: the parsed command line.  Field defaults mirror the
clap defaults (`port = 4242`, `mode = path`, everything else absent). -/
structure Args where
  port : Nat := 4242
  dir : Option String := none
  mode : Mode := Mode.Path
  tls_cert : Option String := none
  tls_key : Option String := none
deriving DecidableEq

/-- `enum ServeMode { Path(PathBuf), Subdomain(PathBuf) }`. -/
inductive ServeMode where
  | Path (root : String)
  | Subdomain (root : String)
deriving DecidableEq

/-- `impl TryFrom<Args> for ServeMode`.  The filesystem is passed in as
`isDir` (Rust `Path::is_dir`, false for nonexistent paths) and
`currentDir` models `std::env::current_dir()` (`none` = failure).  Note
the source evaluates `std::env::current_dir()?` eagerly inside
`unwrap_or`, so its failure propagates even when `dir` is given. -/
def serveModeTryFrom (isDir : String → Bool) (currentDir : Option String)
    (args : Args) : Except String ServeMode :=
  match currentDir with
  | none => Except.error "unable to to read current directory"
  | some cwd =>
    let dir := args.dir.getD cwd
    if isDir dir then
      match args.mode with
      | Mode.Path => Except.ok (ServeMode.Path dir)
      | Mode.Subdomain => Except.ok (ServeMode.Subdomain dir)
    else
      Except.error ("unable to find directory \"" ++ dir ++ "\"")

/-- An HTTP response at the level the handlers observe: status code,
header list (a multimap in insertion order, as `HeaderMap` iterates),
and body. -/
structure HttpResponse where
  status : Nat
  headers : List (String × String)
  body : String
deriving DecidableEq

/-- Failure modes of the external static-file delegate
(`ServeDir::try_call`), which the spec treats as an excluded capability:
the handler only ever inspects *that* it failed, never *how*. -/
inductive DelegateError where
  | notFound
  | traversalRejected
  | ioError
deriving DecidableEq

/-- The `let dir = match mode { ... }` block of `get_static_file`: the
effective filesystem root, or the early `BAD_REQUEST` when SUBDOMAIN
mode finds no subdomain in the Host header. -/
def resolveDir (mode : ServeMode) (host : String) :
    Except (Nat × String) String :=
  match mode with
  | ServeMode.Path rootDir => Except.ok rootDir
  | ServeMode.Subdomain rootDir =>
    match subdomain host with
    | some sub => Except.ok (pathPush rootDir sub)
    | none => Except.error (400, "Oops 2!")

/-- The tail of `get_static_file`: delegate to `ServeDir` on the chosen
directory and collapse any delegate failure to `(400, "Oops!")`. -/
def serveDelegate (delegate : String → Except DelegateError HttpResponse)
    (dir : String) : Except (Nat × String) HttpResponse :=
  match delegate dir with
  | Except.ok res => Except.ok res
  | Except.error _ => Except.error (400, "Oops!")

/-- `async fn get_static_file(Host(host), uri, State(mode))`.  The
request URI is folded into `delegate` (the external `ServeDir` call on
the fixed request), which is consulted on the resolved directory. -/
def get_static_file (mode : ServeMode) (host : String)
    (delegate : String → Except DelegateError HttpResponse) :
    Except (Nat × String) HttpResponse :=
  match resolveDir mode host with
  | Except.error e => Except.error e
  | Except.ok dir => serveDelegate delegate dir

/-- Axum's `IntoResponse` for the handler's `Result`: an `Err((status,
message))` becomes a plain-text response with that status. -/
def renderResult : Except (Nat × String) HttpResponse → HttpResponse
  | Except.ok r => r
  | Except.error (st, msg) => { status := st, headers := [], body := msg }

/-- `async fn most_important_middleware`: run the inner handler, then
`HeaderMap::append` the fixed header (append keeps any existing values;
nothing is overwritten). -/
def most_important_middleware (response : HttpResponse) : HttpResponse :=
  { response with
    headers := response.headers ++ [("x-braindead", "never gonna give you up")] }

/-- The content listener's outbound response: the router's fallback
(`get_static_file`) wrapped by `most_important_middleware`. -/
def contentListenerResponse (mode : ServeMode) (host : String)
    (delegate : String → Except DelegateError HttpResponse) : HttpResponse :=
  most_important_middleware (renderResult (get_static_file mode host delegate))

/-- `http::uri::Parts`, restricted to the three components the redirect
code touches. -/
structure UriParts where
  scheme : Option String
  authority : Option String
  pathAndQuery : Option String
deriving DecidableEq

/-- `Uri::from_parts`: fails when a scheme is present without an
authority or without a path-and-query. -/
def uriFromParts (p : UriParts) : Option UriParts :=
  if p.scheme.isSome && (p.authority.isNone || p.pathAndQuery.isNone) then
    none
  else
    some p

/-- `fn make_https(host, uri, from, to)`.  The external
`http::uri::Authority` parser is passed in as the validity check
`isValidAuthority`; on success the parsed authority is the input string
itself.  The host rewrite is Rust `host.replace(from.to_string(),
to.to_string())`: a replace-all over the whole host string. -/
def make_https (isValidAuthority : String → Bool) (host : String)
    (uri : UriParts) (fromPort toPort : Nat) : Option UriParts :=
  let parts := { uri with scheme := some "https" }
  let parts :=
    if parts.pathAndQuery.isNone then
      { parts with pathAndQuery := some "/" }
    else parts
  let httpsHost := rustReplace host (toString fromPort) (toString toPort)
  if isValidAuthority httpsHost then
    uriFromParts { parts with authority := some httpsHost }
  else
    none

/-- `Uri`'s `Display`: `scheme://authority path_and_query`. -/
def uriToString (p : UriParts) : String :=
  (match p.scheme with
   | some s => s ++ "://"
   | none => "")
  ++ p.authority.getD ""
  ++ p.pathAndQuery.getD ""

/-- Axum 0.6 `Redirect::permanent(uri)`: a response with
`StatusCode::PERMANENT_REDIRECT` (HTTP 308) and a `location` header. -/
def redirectPermanent (uri : String) : HttpResponse :=
  { status := 308, headers := [("location", uri)], body := "" }

/-- The `redirect` closure inside `redirect_http_to_https`, after axum's
`IntoResponse` on both arms: a permanent redirect to the rewritten URI,
or a bare `BAD_REQUEST` when `make_https` fails. -/
def redirect_handler (isValidAuthority : String → Bool)
    (httpPort httpsPort : Nat) (host : String) (uri : UriParts) :
    HttpResponse :=
  match make_https isValidAuthority host uri httpPort httpsPort with
  | some u => redirectPermanent (uriToString u)
  | none => { status := 400, headers := [], body := "" }

/-- `struct Config`: the TLS credential itself is an opaque external
value, so only the port layout is kept. -/
structure Config where
  http : Nat
  https : Option Nat
deriving DecidableEq

/-- The `match (&args.tls_cert, &args.tls_key)` block of `main`
(credential loading, an external effect, elided): both TLS flags present
selects `http = 80` with TLS content on `args.port`; anything else is
plaintext-only on `args.port`. -/
def buildConfig (args : Args) : Config :=
  match args.tls_cert, args.tls_key with
  | some _, some _ => { http := 80, https := some args.port }
  | _, _ => { http := args.port, https := none }

/-- The two serving topologies `main` can enter. -/
inductive Topology where
  | plaintextOnly (port : Nat)
  | tlsWithRedirect (httpPort httpsPort : Nat)
deriving DecidableEq

/-- The `match config.https` dispatch of `main`: with TLS, spawn the
redirect listener on the plaintext port and serve content over TLS;
otherwise serve plaintext content only. -/
def chooseTopology (c : Config) : Topology :=
  match c.https with
  | some httpsPort => Topology.tlsWithRedirect c.http httpsPort
  | none => Topology.plaintextOnly c.http

/-! ## Helper lemmas -/

theorem intercalateChar_single (c : Char) (p : List Char) :
    intercalateChar c [p] = p := rfl

theorem list_eq_front_append_two {α : Type} (l : List α) (h : 2 ≤ l.length) :
    ∃ front y z, l = front ++ [y, z] := by
  induction l with
  | nil => simp at h
  | cons x t ih =>
    rcases t with _ | ⟨y, t'⟩
    · simp at h
    · rcases t' with _ | ⟨z, t''⟩
      · exact ⟨[], x, y, rfl⟩
      · obtain ⟨f, u, v, hf⟩ := ih (by simp)
        exact ⟨x :: f, u, v, congrArg (List.cons x) hf⟩

theorem rsplitnParts_front (c : Char) (front : List (List Char))
    (y z : List Char) (hf : front ≠ []) :
    ((rsplitnParts c (front ++ [y, z])).drop 2).head?
      = some (intercalateChar c front) := by
  rcases front with _ | ⟨a, rest⟩
  · exact absurd rfl hf
  rcases rest with _ | ⟨b, rest'⟩
  · simp [rsplitnParts, intercalateChar]
  · have hcond : ¬ ((a :: b :: rest' ++ [y, z]).length ≤ 3) := by
      simp [List.length_append]
    have hsub : (a :: b :: rest' ++ [y, z]).length - 2
        = (a :: b :: rest').length := by
      simp [List.length_append]
    rw [rsplitnParts, if_neg hcond, hsub, List.drop_left, List.take_left]
    rfl

theorem rsplitnParts_short (c : Char) (parts : List (List Char))
    (h : parts.length ≤ 2) :
    ((rsplitnParts c parts).drop 2).head? = none := by
  have h3 : parts.length ≤ 3 := by omega
  rw [rsplitnParts, if_pos h3,
    List.drop_eq_nil_of_le (by simpa using h)]
  rfl

theorem subdomain_eq (host : String) :
    subdomain host
      = (((rsplitnParts '.' (splitChar '.' host.data)).drop 2).head?).map
          (fun cs => String.mk cs) := rfl

theorem subdomain_of_three_labels (host : String)
    (h : 3 ≤ (splitChar '.' host.data).length) :
    subdomain host = some (String.mk (intercalateChar '.'
      ((splitChar '.' host.data).take
        ((splitChar '.' host.data).length - 2)))) := by
  obtain ⟨front, y, z, hdec⟩ :=
    list_eq_front_append_two (splitChar '.' host.data) (by omega)
  have hflen : 1 ≤ front.length := by
    have := congrArg List.length hdec
    simp [List.length_append] at this
    omega
  have hf : front ≠ [] := by
    intro hnil; rw [hnil] at hflen; simp at hflen
  have htake : (splitChar '.' host.data).take
      ((splitChar '.' host.data).length - 2) = front := by
    rw [hdec]
    have : (front ++ [y, z]).length - 2 = front.length := by
      simp [List.length_append]
    rw [this, List.take_left]
  rw [subdomain_eq, htake, hdec, rsplitnParts_front '.' front y z hf]
  rfl

theorem subdomain_of_le_two_labels (host : String)
    (h : (splitChar '.' host.data).length ≤ 2) :
    subdomain host = none := by
  rw [subdomain_eq, rsplitnParts_short '.' _ h]
  rfl

theorem get_static_file_cases (mode : ServeMode) (host : String)
    (delegate : String → Except DelegateError HttpResponse) :
    (∃ r, get_static_file mode host delegate = Except.ok r) ∨
    get_static_file mode host delegate = Except.error (400, "Oops 2!") ∨
    get_static_file mode host delegate = Except.error (400, "Oops!") := by
  unfold get_static_file resolveDir serveDelegate
  cases mode with
  | Path root => cases hd : delegate root <;> simp [hd]
  | Subdomain root =>
    cases hs : subdomain host with
    | some L =>
      cases hd : delegate (pathPush root L) <;> simp [hs, hd]
    | none => simp [hs]

/-! ## Claim theorems -/

/-- C4: the subdomain extractor returns `some "leiko"` on
`"leiko.braindead.fr"`, `some "foo.bar"` on `"foo.bar.braindead.fr"`,
`some "foo.bar-baz"` on `"foo.bar-baz.braindead.fr"` and `none` on
`"braindead.fr"`; for every host with three or more dot-separated
labels it returns all labels except the last two joined by dots, any
host with two or fewer labels yields `none`, and it is a pure function
(the same input always gives the same result). -/
theorem claim_c4_subdomain_extractor (host : String) :
    subdomain "leiko.braindead.fr" = some "leiko" ∧
    subdomain "foo.bar.braindead.fr" = some "foo.bar" ∧
    subdomain "foo.bar-baz.braindead.fr" = some "foo.bar-baz" ∧
    subdomain "braindead.fr" = none ∧
    (3 ≤ (splitChar '.' host.data).length →
      subdomain host = some (String.mk (intercalateChar '.'
        ((splitChar '.' host.data).take
          ((splitChar '.' host.data).length - 2))))) ∧
    ((splitChar '.' host.data).length ≤ 2 → subdomain host = none) ∧
    subdomain host = subdomain host :=
  ⟨by decide, by decide, by decide, by decide,
   subdomain_of_three_labels host, subdomain_of_le_two_labels host, rfl⟩

/-- Witness for C4 at the concrete host `"x.y.braindead.fr"`. -/
theorem claim_c4_subdomain_extractor_witness :
    3 ≤ (splitChar '.' ("x.y.braindead.fr" : String).data).length ∧
    subdomain "x.y.braindead.fr" = some (String.mk (intercalateChar '.'
      ((splitChar '.' ("x.y.braindead.fr" : String).data).take
        ((splitChar '.' ("x.y.braindead.fr" : String).data).length - 2)))) :=
  ⟨by decide,
   (claim_c4_subdomain_extractor "x.y.braindead.fr").2.2.2.2.1 (by decide)⟩

/-- C6: in PATH mode the effective filesystem root is the configured
root `R` no matter what the Host header is — two requests differing
only in their Host header produce identical results. -/
theorem claim_c6_path_mode_host_independent (R h1 h2 : String)
    (delegate : String → Except DelegateError HttpResponse) :
    get_static_file (ServeMode.Path R) h1 delegate
      = get_static_file (ServeMode.Path R) h2 delegate ∧
    resolveDir (ServeMode.Path R) h1 = Except.ok R :=
  ⟨rfl, rfl⟩

/-- C5: in SUBDOMAIN mode with configured root `R`, a Host header with
subdomain `L` makes the handler consult the delegate exactly on the
root `R` joined with `L` as a path segment, while a Host header with no
subdomain yields `(400, "Oops 2!")` for every possible delegate, i.e.
before any filesystem lookup. -/
theorem claim_c5_subdomain_mode_root (R host : String) :
    (∀ L, subdomain host = some L →
      ∀ delegate : String → Except DelegateError HttpResponse,
        get_static_file (ServeMode.Subdomain R) host delegate
          = serveDelegate delegate (pathPush R L)) ∧
    (subdomain host = none →
      ∀ delegate : String → Except DelegateError HttpResponse,
        get_static_file (ServeMode.Subdomain R) host delegate
          = Except.error (400, "Oops 2!")) := by
  constructor
  · intro L hL delegate
    simp [get_static_file, resolveDir, hL]
  · intro hN delegate
    simp [get_static_file, resolveDir, hN]

/-- Witness for C5: host `"a.example.com"` resolves against root
`"/srv"` through the delegate at `"/srv/a"`, and the bare host
`"example.com"` is rejected with 400 before the delegate is called. -/
theorem claim_c5_subdomain_mode_root_witness :
    (subdomain "a.example.com" = some "a" ∧
      get_static_file (ServeMode.Subdomain "/srv") "a.example.com"
          (fun _ => Except.error DelegateError.notFound)
        = serveDelegate (fun _ => Except.error DelegateError.notFound)
            (pathPush "/srv" "a")) ∧
    (subdomain "example.com" = none ∧
      get_static_file (ServeMode.Subdomain "/srv") "example.com"
          (fun _ => Except.error DelegateError.notFound)
        = Except.error (400, "Oops 2!")) :=
  ⟨⟨by decide,
    (claim_c5_subdomain_mode_root "/srv" "a.example.com").1 "a" (by decide)
      (fun _ => Except.error DelegateError.notFound)⟩,
   ⟨by decide,
    (claim_c5_subdomain_mode_root "/srv" "example.com").2 (by decide)
      (fun _ => Except.error DelegateError.notFound)⟩⟩

/-- C1: whenever the static-file delegate fails — for any failure kind
(not found, traversal rejected, I/O error) — `get_static_file` returns
`(400, "Oops!")`; moreover every error the handler can produce carries
status 400, so no failure is ever surfaced as 404, 403 or 500. -/
theorem claim_c1_collapsed_errors (mode : ServeMode) (host : String)
    (delegate : String → Except DelegateError HttpResponse) :
    (∀ dir e, resolveDir mode host = Except.ok dir →
      delegate dir = Except.error e →
      get_static_file mode host delegate = Except.error (400, "Oops!")) ∧
    (∀ st msg,
      get_static_file mode host delegate = Except.error (st, msg) →
      st = 400) := by
  constructor
  · intro dir e hdir hdel
    simp [get_static_file, hdir, serveDelegate, hdel]
  · intro st msg hres
    rcases get_static_file_cases mode host delegate with ⟨r, hr⟩ | hr | hr <;>
      rw [hr] at hres
    · simp at hres
    · injection hres with h
      injection h with h1 h2
      exact h1.symm
    · injection hres with h
      injection h with h1 h2
      exact h1.symm

/-- Witness for C1: PATH mode with a failing delegate yields
`(400, "Oops!")`. -/
theorem claim_c1_collapsed_errors_witness :
    resolveDir (ServeMode.Path "/srv") "example.com" = Except.ok "/srv" ∧
    get_static_file (ServeMode.Path "/srv") "example.com"
        (fun _ => Except.error DelegateError.ioError)
      = Except.error (400, "Oops!") :=
  ⟨rfl,
   (claim_c1_collapsed_errors (ServeMode.Path "/srv") "example.com"
      (fun _ => Except.error DelegateError.ioError)).1
     "/srv" DelegateError.ioError rfl rfl⟩

/-- C3 as stated is false: the plaintext redirect listener is served
directly from the `redirect` closure, without the middleware layer, so
its responses do not carry the `x-braindead` header.  Concretely, the
redirect response for `GET /foo?x=1` with Host `site.example.com:80`
has only a `location` header. -/
theorem claim_c3_counterexample :
    ("x-braindead", "never gonna give you up")
      ∉ (redirect_handler (fun _ => true) 80 443 "site.example.com:80"
          { scheme := none, authority := none,
            pathAndQuery := some "/foo?x=1" }).headers := by
  decide

/-- C3 (amended): every response of the content listener — the only
listener whose router carries `most_important_middleware` — has
`("x-braindead", "never gonna give you up")` appended unconditionally
after the inner handler completes, whatever its status; the middleware
appends (never overwrites) and has no error path.  Responses of the
plaintext redirect listener do not pass through this middleware. -/
theorem claim_c3_header_middleware (mode : ServeMode) (host : String)
    (delegate : String → Except DelegateError HttpResponse)
    (resp : HttpResponse) :
    (contentListenerResponse mode host delegate).headers
      = (renderResult (get_static_file mode host delegate)).headers
        ++ [("x-braindead", "never gonna give you up")] ∧
    ("x-braindead", "never gonna give you up")
      ∈ (contentListenerResponse mode host delegate).headers ∧
    (most_important_middleware resp).headers
      = resp.headers ++ [("x-braindead", "never gonna give you up")] ∧
    (most_important_middleware resp).status = resp.status ∧
    (most_important_middleware resp).body = resp.body := by
  refine ⟨rfl, ?_, rfl, rfl, rfl⟩
  simp [contentListenerResponse, most_important_middleware]

/-- C2 (amended): when TLS is configured, every plaintext request whose
rewritten authority parses is answered with a permanent redirect of
HTTP status 308 (axum's `Redirect::permanent`), whose target URI has
scheme `https`, the path defaulted to `/` when the request URI carries
no path, the authority formed by textually replacing the plaintext port
number with the TLS port number within the Host header string, and path
and query otherwise unchanged. -/
theorem claim_c2_redirect_construction (isValidAuthority : String → Bool)
    (host : String) (uri : UriParts) (httpPort httpsPort : Nat)
    (hv : isValidAuthority
      (rustReplace host (toString httpPort) (toString httpsPort)) = true) :
    redirect_handler isValidAuthority httpPort httpsPort host uri
      = { status := 308,
          headers := [("location",
            "https://"
              ++ rustReplace host (toString httpPort) (toString httpsPort)
              ++ uri.pathAndQuery.getD "/")],
          body := "" } := by
  cases hpq : uri.pathAndQuery with
  | none =>
    simp [redirect_handler, make_https, hpq, hv, uriFromParts,
      redirectPermanent, uriToString, Option.getD]
  | some pq =>
    simp [redirect_handler, make_https, hpq, hv, uriFromParts,
      redirectPermanent, uriToString, Option.getD]

/-- Witness for C2 at the claim's example: ports 80 and 443, request
`GET /foo?x=1`, Host `site.example.com:80`. -/
theorem claim_c2_redirect_construction_witness :
    (fun _ : String => true)
        (rustReplace "site.example.com:80" (toString 80) (toString 443))
      = true ∧
    redirect_handler (fun _ => true) 80 443 "site.example.com:80"
        { scheme := none, authority := none, pathAndQuery := some "/foo?x=1" }
      = { status := 308,
          headers := [("location", "https://site.example.com:443/foo?x=1")],
          body := "" } := by
  refine ⟨rfl, ?_⟩
  have h := claim_c2_redirect_construction (fun _ => true) "site.example.com:80"
    { scheme := none, authority := none, pathAndQuery := some "/foo?x=1" }
    80 443 rfl
  rw [h]
  decide

/-- C2 as stated is false in one respect: the response status is 308
(`PERMANENT_REDIRECT`, what axum's `Redirect::permanent` emits), not
301, at the claim's own example input. -/
theorem claim_c2_counterexample :
    (redirect_handler (fun _ => true) 80 443 "site.example.com:80"
        { scheme := none, authority := none,
          pathAndQuery := some "/foo?x=1" }).status = 308 ∧
    (redirect_handler (fun _ => true) 80 443 "site.example.com:80"
        { scheme := none, authority := none,
          pathAndQuery := some "/foo?x=1" }).status ≠ 301 := by
  decide

/-- C8: when the rewritten authority fails to parse, the redirect
handler answers that request with a bare HTTP 400 response. -/
theorem claim_c8_redirect_bad_authority (isValidAuthority : String → Bool)
    (httpPort httpsPort : Nat) (host : String) (uri : UriParts)
    (hv : isValidAuthority
      (rustReplace host (toString httpPort) (toString httpsPort)) = false) :
    redirect_handler isValidAuthority httpPort httpsPort host uri
      = { status := 400, headers := [], body := "" } := by
  simp [redirect_handler, make_https, hv]

/-- Witness for C8 with an authority parser that rejects everything. -/
theorem claim_c8_redirect_bad_authority_witness :
    (fun _ : String => false)
        (rustReplace "bad host" (toString 80) (toString 443)) = false ∧
    redirect_handler (fun _ => false) 80 443 "bad host"
        { scheme := none, authority := none, pathAndQuery := none }
      = { status := 400, headers := [], body := "" } :=
  ⟨rfl,
   claim_c8_redirect_bad_authority (fun _ => false) 80 443 "bad host"
     { scheme := none, authority := none, pathAndQuery := none } rfl⟩

/-- C10: the host rewrite is a replace-all over the whole host string,
so with plaintext port 80 and TLS port 443 the host
`port80.example.com` — whose *name* contains the digits `80` — becomes
authority `port443.example.com`. -/
theorem claim_c10_replace_rewrites_hostname :
    rustReplace "port80.example.com" (toString 80) (toString 443)
      = "port443.example.com" ∧
    make_https (fun _ => true) "port80.example.com"
        { scheme := none, authority := none, pathAndQuery := some "/" }
        80 443
      = some { scheme := some "https",
               authority := some "port443.example.com",
               pathAndQuery := some "/" } := by
  decide

/-- C7: mode resolution defaults the directory to the current working
directory when none is configured, fails with a configuration error
whenever the resolved path is not an existing directory, and on success
yields the `Path` or `Subdomain` variant matching the selected mode,
carrying that directory. -/
theorem claim_c7_mode_resolution (isDir : String → Bool) (args : Args)
    (c : String) :
    (args.dir = none → args.dir.getD c = c) ∧
    (isDir (args.dir.getD c) = false →
      serveModeTryFrom isDir (some c) args
        = Except.error
            ("unable to find directory \"" ++ args.dir.getD c ++ "\"")) ∧
    (isDir (args.dir.getD c) = true →
      serveModeTryFrom isDir (some c) args
        = Except.ok (match args.mode with
            | Mode.Path => ServeMode.Path (args.dir.getD c)
            | Mode.Subdomain => ServeMode.Subdomain (args.dir.getD c))) := by
  refine ⟨fun h => by simp [h], fun h => ?_, fun h => ?_⟩
  · simp [serveModeTryFrom, h]
  · cases hm : args.mode <;> simp [serveModeTryFrom, h, hm]

/-- Witness for C7: no directory configured, cwd `"/srv"` exists, and
SUBDOMAIN mode is selected. -/
theorem claim_c7_mode_resolution_witness :
    ((({ dir := none, mode := Mode.Subdomain } : Args)).dir = none) ∧
    ((fun d : String => decide (d = "/srv"))
        ((({ dir := none, mode := Mode.Subdomain } : Args)).dir.getD "/srv")
      = true) ∧
    serveModeTryFrom (fun d => decide (d = "/srv")) (some "/srv")
        ({ dir := none, mode := Mode.Subdomain } : Args)
      = Except.ok (ServeMode.Subdomain "/srv") := by
  refine ⟨rfl, by decide, ?_⟩
  have h := (claim_c7_mode_resolution (fun d => decide (d = "/srv"))
    ({ dir := none, mode := Mode.Subdomain } : Args) "/srv").2.2 (by decide)
  rw [h]
  rfl

/-- C9: the TLS+redirect topology is entered only when both TLS flags
are present; when exactly one of `tls_cert`/`tls_key` is given the
server silently serves plaintext only, on `args.port` (whose clap
default is 4242), with no redirect listener. -/
theorem claim_c9_tls_requires_both (args : Args)
    (h : args.tls_cert.isSome ≠ args.tls_key.isSome) :
    buildConfig args = { http := args.port, https := none } ∧
    chooseTopology (buildConfig args) = Topology.plaintextOnly args.port ∧
    ({} : Args).port = 4242 ∧
    (∀ a : Args, (buildConfig a).https.isSome = true →
      a.tls_cert.isSome = true ∧ a.tls_key.isSome = true) := by
  have hb : buildConfig args = { http := args.port, https := none } := by
    cases hc : args.tls_cert with
    | none => cases hk : args.tls_key <;> simp [buildConfig, hc, hk]
    | some cert =>
      cases hk : args.tls_key with
      | none => simp [buildConfig, hc, hk]
      | some key => rw [hc, hk] at h; simp at h
  refine ⟨hb, by rw [hb]; rfl, rfl, ?_⟩
  intro a ha
  cases hc : a.tls_cert with
  | none => cases hk : a.tls_key <;> simp [buildConfig, hc, hk] at ha
  | some cert =>
    cases hk : a.tls_key with
    | none => simp [buildConfig, hc, hk] at ha
    | some key => simp

/-- Witness for C9: only a certificate is given, so the server stays
plaintext-only on the (default) port 4242. -/
theorem claim_c9_tls_requires_both_witness :
    ((({ tls_cert := some "cert.pem" } : Args)).tls_cert.isSome
      ≠ (({ tls_cert := some "cert.pem" } : Args)).tls_key.isSome) ∧
    chooseTopology (buildConfig ({ tls_cert := some "cert.pem" } : Args))
      = Topology.plaintextOnly 4242 := by
  refine ⟨by decide, ?_⟩
  exact (claim_c9_tls_requires_both ({ tls_cert := some "cert.pem" } : Args)
    (by decide)).2.1
